import Mathlib

/-!
Verification development for the Reddit MCP persistence repository
(`response_schemas.py`, `sqlite_storage.py`).

The embedding is shallow:

* Python/JSON values are modelled by `JVal`; a Python `dict` is an ordered
  association list `Dict` (insertion order preserved, keys unique in practice).
* Pydantic model validation (`schema(**data)`) is modelled structurally by
  per-model field-specification lists (`validateModel`): a field must be
  present with a structurally compatible JSON value, or have a declared
  default (pydantic v1 gives every `Optional[...]`-annotated field an
  implicit `None` default).  Pydantic's lenient scalar coercions and its
  exact error strings are abstracted: validation failure is an `Except.error`
  carrying a reason string.  Numeric JSON values are modelled as integers.
* The SQLite store is a record of in-memory tables.  `json.dumps`/`json.loads`
  round-trips on JSON-blob columns are modelled as the identity on `JVal`
  (`jsonLoads`); `CURRENT_TIMESTAMP` and `datetime.now()` are an explicit
  clock parameter `now`; `uuid.uuid4()` is an explicit `batch_id` parameter.
  Row insertion can fail exactly where the real engine fails: binding a
  non-scalar parameter, a FOREIGN KEY miss, or a NOT NULL constraint.
  `ORDER BY created_at` returns rows in insertion order (all rows of one
  batch share one timestamp and SQLite then yields rowid order).
* Exceptions are `Except String`; every caught-and-continued Python
  exception is a counted error value, as in the source.
-/

/-- JSON-shaped Python values. -/
inductive JVal where
  | jnull : JVal
  | jbool : Bool → JVal
  | jnum : Int → JVal
  | jstr : String → JVal
  | jarr : List JVal → JVal
  | jobj : List (String × JVal) → JVal

/-- A Python dict: ordered association list. -/
abbrev Dict := List (String × JVal)

/-- First value bound to key `k`, if any (Python `d[k]` presence check). -/
def lookupD (d : Dict) (k : String) : Option JVal :=
  (d.find? (fun kv => kv.1 == k)).map (fun kv => kv.2)

/-- Python `d.get(k)`: `None` when the key is absent. -/
def getK (d : Dict) (k : String) : JVal :=
  (lookupD d k).getD .jnull

/-- Python `d[k] = v`: overwrite in place if present, else append. -/
def setKey (d : Dict) (k : String) (v : JVal) : Dict :=
  if d.any (fun kv => kv.1 == k) then
    d.map (fun kv => if kv.1 == k then (k, v) else kv)
  else d ++ [(k, v)]

/-- Python truthiness of a JSON value. -/
def truthy : JVal → Bool
  | .jnull => false
  | .jbool b => b
  | .jnum n => n != 0
  | .jstr s => s != ""
  | .jarr xs => !xs.isEmpty
  | .jobj kvs => !kvs.isEmpty

def isNull : JVal → Bool
  | .jnull => true
  | _ => false

/-- Values the `sqlite3` driver can bind as parameters (scalars and NULL). -/
def bindable : JVal → Bool
  | .jobj _ => false
  | .jarr _ => false
  | _ => true

/-- Projection used in concrete statements: string value at a key. -/
def getStr (d : Dict) (k : String) : Option String :=
  match lookupD d k with
  | some (.jstr s) => some s
  | _ => none

/-- Projection used in concrete statements: numeric value at a key. -/
def getNum (d : Dict) (k : String) : Option Int :=
  match lookupD d k with
  | some (.jnum n) => some n
  | _ => none

/-- Python `mapping.get(kind, [])` over a kind-to-entities mapping. -/
def bucketOf (res : List (String × List Dict)) (k : String) : List Dict :=
  ((res.find? (fun kv => kv.1 == k)).map (fun kv => kv.2)).getD []

/-- Whether a kind-to-entities mapping has a given key at all. -/
def hasBucket (res : List (String × List Dict)) (k : String) : Bool :=
  res.any (fun kv => kv.1 == k)

/-! ## Schema registry (`response_schemas.py`)

Each pydantic model is a list of `(field name, structural type, default)`;
`validateModel` checks a `Dict` against it and returns the normalized field
dict (declaration order, defaults filled in), modelling `model(**data)`
followed by `.dict()`. -/

/-- Structural field types occurring in the pydantic models. -/
inductive FTy where
  | str | int | num | bool
  | optStr | optNum | optInt | optBool
  | obj | optObj | objBool
  | listObj | listStr | optListInt

def checkTy : FTy → JVal → Bool
  | .str, .jstr _ => true
  | .int, .jnum _ => true
  | .num, .jnum _ => true
  | .bool, .jbool _ => true
  | .optStr, .jnull => true
  | .optStr, .jstr _ => true
  | .optNum, .jnull => true
  | .optNum, .jnum _ => true
  | .optInt, .jnull => true
  | .optInt, .jnum _ => true
  | .optBool, .jnull => true
  | .optBool, .jbool _ => true
  | .obj, .jobj _ => true
  | .optObj, .jnull => true
  | .optObj, .jobj _ => true
  | .objBool, .jobj kvs => kvs.all (fun kv => match kv.2 with | .jbool _ => true | _ => false)
  | .listObj, .jarr xs => xs.all (fun v => match v with | .jobj _ => true | _ => false)
  | .listStr, .jarr xs => xs.all (fun v => match v with | .jstr _ => true | _ => false)
  | .optListInt, .jnull => true
  | .optListInt, .jarr xs => xs.all (fun v => match v with | .jnum _ => true | _ => false)
  | _, _ => false

/-- One field specification: name, structural type, optional default. -/
abbrev FieldSpec := String × FTy × Option JVal

/-- Effectful map preserving order (first failure aborts). -/
def mapE {α β : Type} (f : α → Except String β) : List α → Except String (List β)
  | [] => .ok []
  | a :: as =>
    match f a with
    | .error e => .error e
    | .ok b =>
      match mapE f as with
      | .error e => .error e
      | .ok bs => .ok (b :: bs)

/-- Validate one declared field against the supplied data. -/
def validateField (d : Dict) : FieldSpec → Except String (String × JVal)
  | (k, ty, dflt) =>
    match lookupD d k with
    | some v => if checkTy ty v then .ok (k, v) else .error ("invalid type for field " ++ k)
    | none =>
      match dflt with
      | some v => .ok (k, v)
      | none => .error ("field required: " ++ k)

/-- Validate a whole model: `model(**data).dict()` with defaults filled in. -/
def validateModel (spec : List FieldSpec) (d : Dict) : Except String Dict :=
  mapE (validateField d) spec

def reqStrF (d : Dict) (k : String) : Except String String :=
  match lookupD d k with
  | some (.jstr s) => .ok s
  | some _ => .error ("invalid type for field " ++ k)
  | none => .error ("field required: " ++ k)

def reqObjF (d : Dict) (k : String) : Except String Dict :=
  match lookupD d k with
  | some (.jobj o) => .ok o
  | some _ => .error ("invalid type for field " ++ k)
  | none => .error ("field required: " ++ k)

def reqArrF (d : Dict) (k : String) : Except String (List JVal) :=
  match lookupD d k with
  | some (.jarr xs) => .ok xs
  | some _ => .error ("invalid type for field " ++ k)
  | none => .error ("field required: " ++ k)

def asObjE : JVal → Except String Dict
  | .jobj o => .ok o
  | _ => .error "value is not an object"

/-! ### Field specifications of the pydantic models -/

/-- Model of `PostItem` (`response_schemas.py`). -/
def postItemSpec : List FieldSpec :=
  [("id", .str, none), ("title", .str, none), ("author", .str, none),
   ("score", .int, none), ("upvote_ratio", .num, none), ("num_comments", .int, none),
   ("created_utc", .num, none), ("url", .optStr, some .jnull),
   ("permalink", .optStr, some .jnull), ("is_self", .bool, none),
   ("selftext", .optStr, some (.jstr "")), ("link_url", .optStr, some .jnull),
   ("over_18", .bool, none), ("spoiler", .bool, none),
   ("stickied", .optBool, some (.jbool false)), ("locked", .optBool, some (.jbool false)),
   ("distinguished", .optStr, some .jnull), ("flair", .optObj, some .jnull)]

/-- Model of `PostMetadata`. -/
def postMetadataSpec : List FieldSpec :=
  [("fetched_at", .num, none), ("post_count", .int, none)]

/-- Model of `UserInfo`. -/
def userInfoSpec : List FieldSpec :=
  [("username", .str, none), ("created_utc", .num, none),
   ("comment_karma", .int, none), ("link_karma", .int, none),
   ("has_verified_email", .bool, none), ("is_mod", .bool, none),
   ("is_gold", .bool, none), ("has_subscribed", .bool, none),
   ("is_employee", .bool, none), ("over_18", .bool, none),
   ("is_suspended", .bool, none), ("suspension_expiration_utc", .optNum, some .jnull),
   ("total_karma", .int, none), ("subreddit", .optObj, some .jnull)]

/-- Model of `WhoAmIInfo` scalar fields (its `metadata` field is handled separately). -/
def whoAmISpec : List FieldSpec :=
  [("id", .str, none), ("name", .str, none), ("created_utc", .num, none),
   ("comment_karma", .int, none), ("link_karma", .int, none), ("total_karma", .int, none),
   ("awardee_karma", .int, none), ("awarder_karma", .int, none),
   ("has_verified_email", .bool, none), ("is_employee", .bool, none),
   ("is_friend", .bool, none), ("is_gold", .bool, none), ("is_mod", .bool, none),
   ("is_suspended", .bool, none), ("verified", .bool, none), ("has_subscribed", .bool, none),
   ("snoovatar_img", .str, none), ("icon_img", .str, none),
   ("pref_show_snoovatar", .bool, none), ("snoovatar_size", .optListInt, some .jnull),
   ("subreddit", .optObj, some .jnull)]

/-- Model of `WhoAmIMetadata`. -/
def whoAmIMetaSpec : List FieldSpec :=
  [("fetched_at", .num, none), ("is_authenticated", .bool, none),
   ("is_moderator", .bool, none), ("has_verified_email", .bool, none),
   ("has_mail", .bool, none), ("has_mod_mail", .bool, none),
   ("has_subscribed", .bool, none), ("in_chat", .bool, none),
   ("in_redesign_beta", .bool, none), ("new_modmail_exists", .bool, none),
   ("pref_no_profanity", .bool, none), ("suspension_expiration_utc", .optNum, some .jnull)]

/-- Model of `SubredditInfo` scalar fields (its `metadata` field is handled separately). -/
def subredditInfoSpec : List FieldSpec :=
  [("id", .str, none), ("display_name", .str, none), ("title", .str, none),
   ("public_description", .str, none), ("description", .str, none),
   ("subscribers", .int, none), ("active_user_count", .optInt, some .jnull),
   ("created_utc", .num, none), ("over18", .bool, none), ("submission_type", .str, none),
   ("allow_images", .bool, none), ("allow_videos", .bool, none), ("allow_polls", .bool, none),
   ("spoilers_enabled", .bool, none), ("wikienabled", .bool, none),
   ("user_is_banned", .bool, none), ("user_is_moderator", .bool, none),
   ("user_is_subscriber", .bool, none), ("mod_permissions", .listStr, none)]

/-- Model of `SubredditMetadata`. -/
def subredditMetaSpec : List FieldSpec :=
  [("fetched_at", .num, none), ("url", .str, none), ("moderators_count", .int, none),
   ("rules", .listObj, none), ("features", .objBool, none)]

/-- Model of `SubmissionInfo` scalar fields (its `metadata` field is handled separately). -/
def submissionInfoSpec : List FieldSpec :=
  [("id", .str, none), ("title", .str, none), ("author", .str, none),
   ("subreddit", .str, none), ("score", .int, none), ("upvote_ratio", .num, none),
   ("num_comments", .int, none), ("created_utc", .num, none), ("url", .str, none),
   ("permalink", .str, none), ("is_self", .bool, none), ("selftext", .str, none),
   ("selftext_html", .optStr, some .jnull), ("link_url", .str, none),
   ("domain", .str, none), ("over_18", .bool, none), ("spoiler", .bool, none),
   ("stickied", .bool, none), ("locked", .bool, none), ("archived", .bool, none),
   ("distinguished", .optStr, some .jnull), ("flair", .optObj, some .jnull),
   ("media", .optObj, some .jnull), ("preview", .optObj, some .jnull),
   ("awards", .listObj, none)]

/-- Model of `SubmissionMetadata`. -/
def submissionMetaSpec : List FieldSpec :=
  [("fetched_at", .num, none), ("subreddit_id", .str, none), ("author_id", .str, none),
   ("is_original_content", .bool, none), ("is_meta", .bool, none),
   ("is_crosspostable", .bool, none), ("is_reddit_media_domain", .bool, none),
   ("is_robot_indexable", .bool, none), ("is_created_from_ads_ui", .bool, none),
   ("is_video", .bool, none), ("pinned", .bool, none), ("gilded", .int, none),
   ("total_awards_received", .int, none), ("view_count", .optInt, some .jnull),
   ("visited", .bool, none)]

/-- Model of `TrendingSubredditItem`. -/
def trendingItemSpec : List FieldSpec :=
  [("display_name", .str, none), ("title", .str, none), ("subscribers", .int, none),
   ("trending_reason", .optStr, some .jnull)]

/-! ### Validated responses and per-operation validators -/

/-- A validated `PostItem`: the typed `author` field plus the full
normalized field dict (`post.dict()`). -/
structure PostV where
  author : String
  fields : Dict

/-- A validated response, carrying exactly what the decomposition in
`_extract_entities_from_validated_response` reads from it. -/
inductive Validated where
  | user (d : Dict)
  | topPosts (subreddit time_filter : String) (posts : List PostV)
  | subredditI (d : Dict)
  | trending (subs : List Dict)
  | submission (author subreddit : String) (d : Dict)

def validatePostItem (d : Dict) : Except String PostV :=
  match reqStrF d "author" with
  | .error e => .error e
  | .ok a =>
    match validateModel postItemSpec d with
    | .error e => .error e
    | .ok nd => .ok ⟨a, nd⟩

def validateGetTopPosts (d : Dict) : Except String Validated :=
  match reqStrF d "subreddit" with
  | .error e => .error e
  | .ok sub =>
    match reqStrF d "time_filter" with
    | .error e => .error e
    | .ok tf =>
      match reqArrF d "posts" with
      | .error e => .error e
      | .ok pj =>
        match mapE (fun v => match asObjE v with
                             | .error e => .error e
                             | .ok pd => validatePostItem pd) pj with
        | .error e => .error e
        | .ok posts =>
          match reqObjF d "metadata" with
          | .error e => .error e
          | .ok mj =>
            match validateModel postMetadataSpec mj with
            | .error e => .error e
            | .ok _ => .ok (.topPosts sub tf posts)

def validateUserInfo (d : Dict) : Except String Validated :=
  match validateModel userInfoSpec d with
  | .error e => .error e
  | .ok nd => .ok (.user nd)

def validateWhoAmI (d : Dict) : Except String Validated :=
  match validateModel whoAmISpec d with
  | .error e => .error e
  | .ok base =>
    match reqObjF d "metadata" with
    | .error e => .error e
    | .ok mj =>
      match validateModel whoAmIMetaSpec mj with
      | .error e => .error e
      | .ok m => .ok (.user (base ++ [("metadata", .jobj m)]))

def validateSubredditInfo (d : Dict) : Except String Validated :=
  match validateModel subredditInfoSpec d with
  | .error e => .error e
  | .ok base =>
    match reqObjF d "metadata" with
    | .error e => .error e
    | .ok mj =>
      match validateModel subredditMetaSpec mj with
      | .error e => .error e
      | .ok m => .ok (.subredditI (base ++ [("metadata", .jobj m)]))

def validateTrending (d : Dict) : Except String Validated :=
  match reqArrF d "subreddits" with
  | .error e => .error e
  | .ok sj =>
    match mapE (fun v => match asObjE v with
                         | .error e => .error e
                         | .ok sd => validateModel trendingItemSpec sd) sj with
    | .error e => .error e
    | .ok subs =>
      match reqObjF d "metadata" with
      | .error e => .error e
      | .ok _ => .ok (.trending subs)

def validateSubmission (d : Dict) : Except String Validated :=
  match reqStrF d "author" with
  | .error e => .error e
  | .ok a =>
    match reqStrF d "subreddit" with
    | .error e => .error e
    | .ok sub =>
      match validateModel submissionInfoSpec d with
      | .error e => .error e
      | .ok base =>
        match reqObjF d "metadata" with
        | .error e => .error e
        | .ok mj =>
          match validateModel submissionMetaSpec mj with
          | .error e => .error e
          | .ok m => .ok (.submission a sub (base ++ [("metadata", .jobj m)]))

/-- Identifier of a registered schema (the pydantic class bound to an
operation name in `FUNCTION_SCHEMAS`). -/
inductive SchemaId where
  | userInfoS | whoAmIS | getTopPostsS | subredditInfoS | trendingS | submissionS
deriving DecidableEq

/-- Model of `FUNCTION_SCHEMAS` mapping from `response_schemas.py`. -/
def FUNCTION_SCHEMAS : List (String × SchemaId) :=
  [("get_user_info", .userInfoS), ("who_am_i", .whoAmIS),
   ("get_top_posts", .getTopPostsS), ("get_subreddit_info", .subredditInfoS),
   ("get_subreddit_stats", .subredditInfoS), ("get_trending_subreddits", .trendingS),
   ("get_submission_by_url", .submissionS), ("get_submission_by_id", .submissionS)]

/-- Model of `get_schema_for_function`. -/
def get_schema_for_function (fn : String) : Option SchemaId :=
  (FUNCTION_SCHEMAS.find? (fun kv => kv.1 == fn)).map (fun kv => kv.2)

/-- Model of `schema(**data)`: run a schema's validation. -/
def runSchema : SchemaId → Dict → Except String Validated
  | .userInfoS, d => validateUserInfo d
  | .whoAmIS, d => validateWhoAmI d
  | .getTopPostsS, d => validateGetTopPosts d
  | .subredditInfoS, d => validateSubredditInfo d
  | .trendingS, d => validateTrending d
  | .submissionS, d => validateSubmission d

/-! ## Extractor (`extract_entities_from_response` and helpers) -/

/-- The five fixed entity-kind keys, in the order the extractor
initializes them. -/
def fiveKindNames : List String :=
  ["users", "posts", "comments", "subreddits", "submissions"]

/-- Build the five-kind mapping in initialization order. -/
def fiveBuckets (us ps cs ss sb : List Dict) : List (String × List Dict) :=
  [("users", us), ("posts", ps), ("comments", cs), ("subreddits", ss), ("submissions", sb)]

/-- Actor stub emitted next to a post (`{"username": ..., "post_activity": True}`). -/
def userStubPost (a : String) : Dict :=
  [("username", .jstr a), ("post_activity", .jbool true)]

/-- Actor stub emitted next to a submission. -/
def userStubSubmission (a : String) : Dict :=
  [("username", .jstr a), ("submission_activity", .jbool true)]

/-- Model of `_extract_entities_from_validated_response`: decompose a validated
response into the five entity kinds. -/
def extractFromValidated : Validated → List (String × List Dict)
  | .user d => fiveBuckets [d] [] [] [] []
  | .topPosts sub tf posts =>
    fiveBuckets
      ((posts.filter (fun p => p.author != "[deleted]")).map (fun p => userStubPost p.author))
      (posts.map (fun p => p.fields))
      []
      [[("name", .jstr sub), ("time_filter", .jstr tf), ("post_count", .jnum posts.length)]]
      []
  | .subredditI d => fiveBuckets [] [] [] [d] []
  | .trending subs =>
    fiveBuckets [] [] []
      (subs.map (fun s => setKey s "is_trending" (.jbool true)))
      []
  | .submission a sub d =>
    fiveBuckets
      (if a == "[deleted]" then [] else [userStubSubmission a])
      [] []
      [[("name", .jstr sub), ("submission_activity", .jbool true)]]
      [d]

/-- Model of `extract_entities_from_response`: schema lookup, validation, decomposition.
Total by construction — the Python original catches every validation
exception and degrades to the `validation_error` mapping, and the
no-schema case returns the `unknown` mapping. -/
def extract_entities_from_response (data : Dict) (fn : String) : List (String × List Dict) :=
  match get_schema_for_function fn with
  | none => [("unknown", [data])]
  | some s =>
    match runSchema s data with
    | .ok v => extractFromValidated v
    | .error e => [("validation_error", [[("error", .jstr e), ("data", .jobj data)]])]

/-! ## `parse_to_units` (pure rendering)

The Python method mutates each extracted entity dict in place when call
metadata is supplied; the pure rendering returns the stamped dicts.  The
`except` fallback in the source is unreachable here because the extractor
is total.  An object-identity rendering for the unregistered-operation
branch appears further below for the frame-effect claim. -/

/-- ISO timestamp of the explicit clock. -/
def isoTime (now : Nat) : String := toString now

/-- The `extraction_metadata` sub-object stamped onto entities. -/
def extractionMetaObj (fn : String) (now : Nat) (m : Dict) : JVal :=
  .jobj [("function_name", .jstr fn), ("extracted_at", .jstr (isoTime now)),
         ("function_metadata", .jobj m)]

/-- Model of `entity["extraction_metadata"] = {...}` on one entity. -/
def stampEntity (fn : String) (now : Nat) (m : Dict) (d : Dict) : Dict :=
  setKey d "extraction_metadata" (extractionMetaObj fn now m)

/-- What `parse_to_units` does to a single entity, given the optional call
metadata (`if function_metadata:` is Python truthiness: `None` and the
empty dict both skip stamping). -/
def stampWhenPresent (fn : String) (meta : Option Dict) (now : Nat) (d : Dict) : Dict :=
  match meta with
  | some m => if m.isEmpty then d else stampEntity fn now m d
  | none => d

/-- Model of `SQLiteStorage.parse_to_units`. -/
def parse_to_units (data : Dict) (fn : String) (meta : Option Dict) (now : Nat) :
    List (String × List Dict) :=
  let eu := extract_entities_from_response data fn
  match meta with
  | some m =>
    if m.isEmpty then eu
    else eu.map (fun b => (b.1, b.2.map (stampEntity fn now m)))
  | none => eu

/-! ## Batch Store (`sqlite_storage.py`) -/

/-- One row of the `batches` ledger (`_create_tables`).  `total_entities`
and `entities_stored` both start at their SQL `DEFAULT 0`. -/
structure BatchRow where
  batch_id : String
  function_name : String
  status : String
  total_entities : Nat
  entities_stored : Nat
  errors : Nat
  function_metadata : Option Dict
  started_at : Nat
  completed_at : Option Nat
  error_message : Option String

/-- The database: the batch ledger plus one table per entity kind.
Entity rows are column-name-to-value dicts (what `SELECT *` plus
`dict(zip(columns, row))` yields). -/
structure DB where
  batches : List BatchRow
  users : List Dict
  posts : List Dict
  comments : List Dict
  subreddits : List Dict
  submissions : List Dict

def emptyDB : DB := ⟨[], [], [], [], [], []⟩

/-- Model of `json.dumps(x) if x else None` (the JSON text is modelled by the value). -/
def dumpsIfTruthy (v : JVal) : JVal :=
  if truthy v then v else .jnull

/-- Model of `json.dumps(function_metadata) if function_metadata else None` as a
ledger column value. -/
def metaCol (meta : Option Dict) : Option Dict :=
  match meta with
  | some d => if d.isEmpty then none else some d
  | none => none

/-- Same, as an entity-table column value. -/
def metaJson (meta : Option Dict) : JVal :=
  match metaCol meta with
  | some d => .jobj d
  | none => .jnull

/-- The ledger row `create_batch` inserts: `status = processing`, both
counters at their SQL defaults, `completed_at` unset. -/
def newBatchRow (fn : String) (meta : Option Dict) (bid : String) (now : Nat) : BatchRow :=
  { batch_id := bid, function_name := fn, status := "processing",
    total_entities := 0, entities_stored := 0, errors := 0,
    function_metadata := metaCol meta, started_at := now,
    completed_at := none, error_message := none }

/-- Model of `SQLiteStorage.create_batch` with the generated UUID and the clock
made explicit.  A duplicate `batch_id` violates the PRIMARY KEY, which in
the source raises out of `create_batch`. -/
def create_batch (db : DB) (fn : String) (meta : Option Dict) (bid : String) (now : Nat) :
    Except String DB :=
  if db.batches.any (fun b => b.batch_id == bid) then
    .error "UNIQUE constraint failed: batches.batch_id"
  else
    .ok { db with batches := db.batches ++ [newBatchRow fn meta bid now] }

/-- Model of `SQLiteStorage.update_batch_status`: sets `status`, `entities_stored`,
`errors`, `error_message` and `completed_at = CURRENT_TIMESTAMP` on the
matching ledger row.  It does not touch `total_entities`. -/
def update_batch_status (db : DB) (bid status : String) (entities_stored errors : Nat)
    (error_message : Option String) (now : Nat) : DB :=
  { db with batches := db.batches.map (fun b =>
      if b.batch_id == bid then
        { b with status := status, entities_stored := entities_stored, errors := errors,
                 error_message := error_message, completed_at := some now }
      else b) }

/-- Model of `SQLiteStorage.get_batch_info`: the ledger row for a batch id. -/
def get_batch_info (db : DB) (bid : String) : Option BatchRow :=
  db.batches.find? (fun b => b.batch_id == bid)

/-! ### Per-kind `store_*` methods

Each builds the inserted row (columns in `CREATE TABLE` order, the
surrogate `id` being the next rowid) and fails exactly where `sqlite3`
raises inside the `INSERT`: a non-scalar bound parameter, a missing
foreign batch (`PRAGMA foreign_keys = ON`), or a NOT NULL column.  The
JSON-blob columns (`subreddit_info`, `flair`, `media`, `preview`,
`awards`, `function_metadata`) are `json.dumps` text and therefore always
bindable. -/

def batchExists (db : DB) (bid : String) : Bool :=
  db.batches.any (fun b => b.batch_id == bid)

def userBindVals (ud : Dict) : List JVal :=
  [getK ud "username", getK ud "created_utc", getK ud "comment_karma",
   getK ud "link_karma", getK ud "total_karma", getK ud "has_verified_email",
   getK ud "is_employee", getK ud "is_mod", getK ud "is_gold", getK ud "over_18",
   getK ud "is_suspended", getK ud "suspension_expiration_utc"]

def userRow (db : DB) (ud : Dict) (bid fn : String) (meta : Option Dict) (now : Nat) : Dict :=
  [("id", .jnum (db.users.length + 1)), ("batch_id", .jstr bid),
   ("username", getK ud "username"), ("created_utc", getK ud "created_utc"),
   ("comment_karma", getK ud "comment_karma"), ("link_karma", getK ud "link_karma"),
   ("total_karma", getK ud "total_karma"),
   ("has_verified_email", getK ud "has_verified_email"),
   ("is_employee", getK ud "is_employee"), ("is_mod", getK ud "is_mod"),
   ("is_gold", getK ud "is_gold"), ("over_18", getK ud "over_18"),
   ("is_suspended", getK ud "is_suspended"),
   ("suspension_expiration_utc", getK ud "suspension_expiration_utc"),
   ("subreddit_info", dumpsIfTruthy (getK ud "subreddit")),
   ("source_function", .jstr fn), ("extracted_at", .jstr (isoTime now)),
   ("function_metadata", metaJson meta),
   ("created_at", .jstr (isoTime now)), ("updated_at", .jstr (isoTime now))]

/-- Model of `SQLiteStorage.store_user`. -/
def store_user (db : DB) (ud : Dict) (bid fn : String) (meta : Option Dict) (now : Nat) :
    Except String DB :=
  if !(userBindVals ud).all bindable then .error "Error binding parameter"
  else if !batchExists db bid then .error "FOREIGN KEY constraint failed"
  else if isNull (getK ud "username") then .error "NOT NULL constraint failed: users.username"
  else .ok { db with users := db.users ++ [userRow db ud bid fn meta now] }

def postBindVals (pd : Dict) : List JVal :=
  [getK pd "id", getK pd "title", getK pd "author", getK pd "score",
   getK pd "upvote_ratio", getK pd "num_comments", getK pd "created_utc",
   getK pd "url", getK pd "permalink", getK pd "is_self", getK pd "selftext",
   getK pd "link_url", getK pd "over_18", getK pd "spoiler", getK pd "stickied",
   getK pd "locked", getK pd "distinguished"]

def postRow (db : DB) (pd : Dict) (bid fn : String) (meta : Option Dict) (now : Nat) : Dict :=
  [("id", .jnum (db.posts.length + 1)), ("batch_id", .jstr bid),
   ("post_id", getK pd "id"), ("title", getK pd "title"), ("author", getK pd "author"),
   ("score", getK pd "score"), ("upvote_ratio", getK pd "upvote_ratio"),
   ("num_comments", getK pd "num_comments"), ("created_utc", getK pd "created_utc"),
   ("url", getK pd "url"), ("permalink", getK pd "permalink"),
   ("is_self", getK pd "is_self"), ("selftext", getK pd "selftext"),
   ("link_url", getK pd "link_url"), ("over_18", getK pd "over_18"),
   ("spoiler", getK pd "spoiler"), ("stickied", getK pd "stickied"),
   ("locked", getK pd "locked"), ("distinguished", getK pd "distinguished"),
   ("flair", dumpsIfTruthy (getK pd "flair")),
   ("source_function", .jstr fn), ("extracted_at", .jstr (isoTime now)),
   ("function_metadata", metaJson meta),
   ("created_at", .jstr (isoTime now)), ("updated_at", .jstr (isoTime now))]

/-- Model of `SQLiteStorage.store_post`. -/
def store_post (db : DB) (pd : Dict) (bid fn : String) (meta : Option Dict) (now : Nat) :
    Except String DB :=
  if !(postBindVals pd).all bindable then .error "Error binding parameter"
  else if !batchExists db bid then .error "FOREIGN KEY constraint failed"
  else if isNull (getK pd "id") then .error "NOT NULL constraint failed: posts.post_id"
  else if isNull (getK pd "title") then .error "NOT NULL constraint failed: posts.title"
  else .ok { db with posts := db.posts ++ [postRow db pd bid fn meta now] }

def commentBindVals (cd : Dict) : List JVal :=
  [getK cd "id", getK cd "author", getK cd "body", getK cd "parent_id",
   getK cd "post_id", getK cd "created_utc", getK cd "score"]

def commentRow (db : DB) (cd : Dict) (bid fn : String) (meta : Option Dict) (now : Nat) : Dict :=
  [("id", .jnum (db.comments.length + 1)), ("batch_id", .jstr bid),
   ("comment_id", getK cd "id"), ("author", getK cd "author"), ("body", getK cd "body"),
   ("parent_id", getK cd "parent_id"), ("post_id", getK cd "post_id"),
   ("created_utc", getK cd "created_utc"), ("score", getK cd "score"),
   ("source_function", .jstr fn), ("extracted_at", .jstr (isoTime now)),
   ("function_metadata", metaJson meta),
   ("created_at", .jstr (isoTime now)), ("updated_at", .jstr (isoTime now))]

/-- Model of `SQLiteStorage.store_comment`. -/
def store_comment (db : DB) (cd : Dict) (bid fn : String) (meta : Option Dict) (now : Nat) :
    Except String DB :=
  if !(commentBindVals cd).all bindable then .error "Error binding parameter"
  else if !batchExists db bid then .error "FOREIGN KEY constraint failed"
  else if isNull (getK cd "id") then .error "NOT NULL constraint failed: comments.comment_id"
  else .ok { db with comments := db.comments ++ [commentRow db cd bid fn meta now] }

/-- Model of `subreddit_data.get("display_name", subreddit_data.get("name"))`. -/
def subredditDisplayName (sd : Dict) : JVal :=
  match lookupD sd "display_name" with
  | some v => v
  | none => getK sd "name"

def subredditBindVals (sd : Dict) : List JVal :=
  [getK sd "id", subredditDisplayName sd, getK sd "title",
   getK sd "public_description", getK sd "description", getK sd "subscribers",
   getK sd "active_user_count", getK sd "created_utc", getK sd "over18",
   getK sd "submission_type", getK sd "allow_images", getK sd "allow_videos",
   getK sd "allow_polls", getK sd "spoilers_enabled"]

def subredditRow (db : DB) (sd : Dict) (bid fn : String) (meta : Option Dict) (now : Nat) : Dict :=
  [("id", .jnum (db.subreddits.length + 1)), ("batch_id", .jstr bid),
   ("subreddit_id", getK sd "id"), ("display_name", subredditDisplayName sd),
   ("title", getK sd "title"), ("public_description", getK sd "public_description"),
   ("description", getK sd "description"), ("subscribers", getK sd "subscribers"),
   ("active_user_count", getK sd "active_user_count"),
   ("created_utc", getK sd "created_utc"), ("over18", getK sd "over18"),
   ("submission_type", getK sd "submission_type"),
   ("allow_images", getK sd "allow_images"), ("allow_videos", getK sd "allow_videos"),
   ("allow_polls", getK sd "allow_polls"), ("spoilers_enabled", getK sd "spoilers_enabled"),
   ("source_function", .jstr fn), ("extracted_at", .jstr (isoTime now)),
   ("function_metadata", metaJson meta),
   ("created_at", .jstr (isoTime now)), ("updated_at", .jstr (isoTime now))]

/-- Model of `SQLiteStorage.store_subreddit`. -/
def store_subreddit (db : DB) (sd : Dict) (bid fn : String) (meta : Option Dict) (now : Nat) :
    Except String DB :=
  if !(subredditBindVals sd).all bindable then .error "Error binding parameter"
  else if !batchExists db bid then .error "FOREIGN KEY constraint failed"
  else if isNull (subredditDisplayName sd) then
    .error "NOT NULL constraint failed: subreddits.display_name"
  else .ok { db with subreddits := db.subreddits ++ [subredditRow db sd bid fn meta now] }

def submissionBindVals (sd : Dict) : List JVal :=
  [getK sd "id", getK sd "title", getK sd "author", getK sd "subreddit",
   getK sd "score", getK sd "upvote_ratio", getK sd "num_comments",
   getK sd "created_utc", getK sd "url", getK sd "permalink", getK sd "is_self",
   getK sd "selftext", getK sd "selftext_html", getK sd "link_url", getK sd "domain",
   getK sd "over_18", getK sd "spoiler", getK sd "stickied", getK sd "locked",
   getK sd "archived", getK sd "distinguished"]

def submissionRow (db : DB) (sd : Dict) (bid fn : String) (meta : Option Dict) (now : Nat) : Dict :=
  [("id", .jnum (db.submissions.length + 1)), ("batch_id", .jstr bid),
   ("submission_id", getK sd "id"), ("title", getK sd "title"),
   ("author", getK sd "author"), ("subreddit", getK sd "subreddit"),
   ("score", getK sd "score"), ("upvote_ratio", getK sd "upvote_ratio"),
   ("num_comments", getK sd "num_comments"), ("created_utc", getK sd "created_utc"),
   ("url", getK sd "url"), ("permalink", getK sd "permalink"),
   ("is_self", getK sd "is_self"), ("selftext", getK sd "selftext"),
   ("selftext_html", getK sd "selftext_html"), ("link_url", getK sd "link_url"),
   ("domain", getK sd "domain"), ("over_18", getK sd "over_18"),
   ("spoiler", getK sd "spoiler"), ("stickied", getK sd "stickied"),
   ("locked", getK sd "locked"), ("archived", getK sd "archived"),
   ("distinguished", getK sd "distinguished"),
   ("flair", dumpsIfTruthy (getK sd "flair")), ("media", dumpsIfTruthy (getK sd "media")),
   ("preview", dumpsIfTruthy (getK sd "preview")),
   ("awards", dumpsIfTruthy (getK sd "awards")),
   ("source_function", .jstr fn), ("extracted_at", .jstr (isoTime now)),
   ("function_metadata", metaJson meta),
   ("created_at", .jstr (isoTime now)), ("updated_at", .jstr (isoTime now))]

/-- Model of `SQLiteStorage.store_submission`. -/
def store_submission (db : DB) (sd : Dict) (bid fn : String) (meta : Option Dict) (now : Nat) :
    Except String DB :=
  if !(submissionBindVals sd).all bindable then .error "Error binding parameter"
  else if !batchExists db bid then .error "FOREIGN KEY constraint failed"
  else if isNull (getK sd "id") then
    .error "NOT NULL constraint failed: submissions.submission_id"
  else if isNull (getK sd "title") then .error "NOT NULL constraint failed: submissions.title"
  else .ok { db with submissions := db.submissions ++ [submissionRow db sd bid fn meta now] }

/-! ### Read side -/

/-- Model of `json.loads` of a `json.dumps` text column: identity on the modelled
JSON value. -/
def jsonLoads (v : JVal) : JVal := v

/-- Model of `if row.get(k): row[k] = json.loads(row[k])`. -/
def decodeJsonField (k : String) (r : Dict) : Dict :=
  if truthy (getK r k) then setKey r k (jsonLoads (getK r k)) else r

def rowBatchIs (bid : String) (r : Dict) : Bool :=
  match getK r "batch_id" with
  | .jstr s => s == bid
  | _ => false

/-- Model of `SQLiteStorage.get_batch_results`: all rows of the five kind tables
for one batch, JSON-blob columns decoded, in insertion order. -/
def get_batch_results (db : DB) (bid : String) : List (String × List Dict) :=
  [("users", (db.users.filter (rowBatchIs bid)).map
      (fun r => decodeJsonField "function_metadata" (decodeJsonField "subreddit_info" r))),
   ("posts", (db.posts.filter (rowBatchIs bid)).map
      (fun r => decodeJsonField "function_metadata" (decodeJsonField "flair" r))),
   ("comments", (db.comments.filter (rowBatchIs bid)).map
      (fun r => decodeJsonField "function_metadata" r)),
   ("subreddits", (db.subreddits.filter (rowBatchIs bid)).map
      (fun r => decodeJsonField "function_metadata" r)),
   ("submissions", (db.submissions.filter (rowBatchIs bid)).map
      (fun r => decodeJsonField "function_metadata" (decodeJsonField "awards"
                  (decodeJsonField "preview" (decodeJsonField "media"
                    (decodeJsonField "flair" r))))))]

/-! ## Orchestrator (`process_and_store_entities`) -/

/-- The `stored_counts` dictionary. -/
structure StoredCounts where
  users : Nat
  posts : Nat
  comments : Nat
  subreddits : Nat
  submissions : Nat
  errors : Nat
deriving DecidableEq

/-- The returned `BatchOutcome` dictionary. -/
structure Outcome where
  batch_id : String
  status : String
  total_entities : Nat
  entities_stored : StoredCounts
  errors : Nat
  error_message : Option String

/-- Python `str(...)` rendering used inside error message interpolation. -/
def pyShow : JVal → String
  | .jnull => "None"
  | .jbool true => "True"
  | .jbool false => "False"
  | .jnum n => toString n
  | .jstr s => s
  | .jarr _ => "<list>"
  | .jobj _ => "<dict>"

/-- Model of `entity.get(key, 'unknown')` rendered into an f-string. -/
def entityLabel (k : String) (d : Dict) : String :=
  match lookupD d k with
  | some v => pyShow v
  | none => "unknown"

def msgUser (d : Dict) (e : String) : String :=
  "Error storing user " ++ entityLabel "username" d ++ ": " ++ e

def msgPost (d : Dict) (e : String) : String :=
  "Error storing post " ++ entityLabel "id" d ++ ": " ++ e

def msgComment (d : Dict) (e : String) : String :=
  "Error storing comment " ++ entityLabel "id" d ++ ": " ++ e

def msgSubreddit (d : Dict) (e : String) : String :=
  "Error storing subreddit " ++ entityLabel "name" d ++ ": " ++ e

def msgSubmission (d : Dict) (e : String) : String :=
  "Error storing submission " ++ entityLabel "id" d ++ ": " ++ e

/-- One `for entity in ...: try store except count-and-continue` loop:
returns the database after all attempts, the success count, and the
failure messages in the order the failures occurred. -/
def storeLoop (step : DB → Dict → Except String DB) (mk : Dict → String → String) :
    DB → List Dict → DB × Nat × List String
  | db, [] => (db, 0, [])
  | db, d :: ds =>
    match step db d with
    | .ok db2 =>
      let r := storeLoop step mk db2 ds
      (r.1, r.2.1 + 1, r.2.2)
    | .error e =>
      let r := storeLoop step mk db ds
      (r.1, r.2.1, mk d e :: r.2.2)

/-- The five store loops of `process_and_store_entities`, in source order:
returns the final database, the `stored_counts`, and all failure messages
in order of occurrence. -/
def attemptAll (db : DB) (eu : List (String × List Dict)) (fn : String) (meta : Option Dict)
    (bid : String) (now : Nat) : DB × StoredCounts × List String :=
  let r1 := storeLoop (fun db d => store_user db d bid fn meta now) msgUser db (bucketOf eu "users")
  let r2 := storeLoop (fun db d => store_post db d bid fn meta now) msgPost r1.1 (bucketOf eu "posts")
  let r3 := storeLoop (fun db d => store_comment db d bid fn meta now) msgComment r2.1 (bucketOf eu "comments")
  let r4 := storeLoop (fun db d => store_subreddit db d bid fn meta now) msgSubreddit r3.1 (bucketOf eu "subreddits")
  let r5 := storeLoop (fun db d => store_submission db d bid fn meta now) msgSubmission r4.1 (bucketOf eu "submissions")
  let msgs := r1.2.2 ++ r2.2.2 ++ r3.2.2 ++ r4.2.2 ++ r5.2.2
  (r5.1, ⟨r1.2.1, r2.2.1, r3.2.1, r4.2.1, r5.2.1, msgs.length⟩, msgs)

/-- The totals-and-finalization arithmetic of `process_and_store_entities`:
`total_entities` is the sum of the non-error counts, `status` is
`completed` exactly when the error count is zero, and `error_message`
joins the failure messages with `"; "` when there are any. -/
def finalizeOutcome (bid : String) (counts : StoredCounts) (msgs : List String) : Outcome :=
  ⟨bid,
   if counts.errors == 0 then "completed" else "failed",
   counts.users + counts.posts + counts.comments + counts.subreddits + counts.submissions,
   counts,
   counts.errors,
   if msgs.isEmpty then none else some (String.intercalate "; " msgs)⟩

/-- Body of `process_and_store_entities` after the batch row exists:
extract, store each entity, total up, finalize the ledger row, and build
the returned outcome. -/
def runBatch (db : DB) (raw : Dict) (fn : String) (meta : Option Dict) (bid : String)
    (now : Nat) : DB × Outcome :=
  let eu := parse_to_units raw fn meta now
  let a := attemptAll db eu fn meta bid now
  let o := finalizeOutcome bid a.2.1 a.2.2
  (update_batch_status a.1 bid o.status o.total_entities o.errors o.error_message now, o)

/-- Model of `SQLiteStorage.process_and_store_entities` with UUID and clock explicit. -/
def process_and_store_entities (db : DB) (raw : Dict) (fn : String) (meta : Option Dict)
    (bid : String) (now : Nat) : Except String (DB × Outcome) :=
  match create_batch db fn meta bid now with
  | .error e => .error e
  | .ok db1 => .ok (runBatch db1 raw fn meta bid now)

/-- The per-entity failure descriptions a `process_and_store_entities`
invocation accumulates, in order of occurrence. -/
def failureMessages (db : DB) (raw : Dict) (fn : String) (meta : Option Dict) (bid : String)
    (now : Nat) : List String :=
  match create_batch db fn meta bid now with
  | .error _ => []
  | .ok db1 => (attemptAll db1 (parse_to_units raw fn meta now) fn meta bid now).2.2

/-! ## Object-identity rendering of `parse_to_units` (unregistered branch)

Python dicts are heap objects; `extract_entities_from_response` puts the
very `raw_response` object (not a copy) into the `unknown` list, and the
metadata-stamping loop then mutates that object in place.  To state this
frame effect, dicts live in an explicit heap of references.  Only the
no-registered-schema branch is rendered here: on the registered branches
the extractor builds fresh dicts (via `.dict()` and literals), so no
aliasing of the input object arises; those branches are covered by the
pure `parse_to_units` above and are `none` here. -/

abbrev Ref := Nat

/-- A heap of dict objects. -/
abbrev RHeap := Ref → Dict

/-- Mutate the object behind `r` in place:
`entity["extraction_metadata"] = {...}`. -/
def stampRef (fn : String) (now : Nat) (m : Dict) (r : Ref) (h : RHeap) : RHeap :=
  fun q => if q == r then setKey (h q) "extraction_metadata" (extractionMetaObj fn now m) else h q

/-- Model of `parse_to_units` on the unregistered-operation branch, with object
identity explicit.  Returns the new heap and the kind-to-references
mapping. -/
def parse_to_units_ref (h : RHeap) (r : Ref) (fn : String) (meta : Option Dict) (now : Nat) :
    Option (RHeap × List (String × List Ref)) :=
  match get_schema_for_function fn with
  | some _ => none
  | none =>
    let res : List (String × List Ref) := [("unknown", [r])]
    match meta with
    | some m =>
      if m.isEmpty then some (h, res)
      else
        some (res.foldl (fun hh b => b.2.foldl (fun hh2 q => stampRef fn now m q hh2) hh) h, res)
    | none => some (h, res)

/-! ## Raw Batch Store operation sequences

For the batch state-machine claim: a client may interleave `create_batch`
and `update_batch_status` calls directly (both are public methods), so the
lifecycle invariant is examined over arbitrary operation sequences.  A
`create_batch` whose PRIMARY KEY insert fails raises in the source and
leaves the table unchanged; it is modelled as leaving the state unchanged. -/

inductive BOp where
  | create (bid fn : String) (meta : Option Dict) (now : Nat)
  | update (bid status : String) (stored errors : Nat) (emsg : Option String) (now : Nat)

def applyOp (db : DB) : BOp → DB
  | .create bid fn meta now =>
    match create_batch db fn meta bid now with
    | .ok db2 => db2
    | .error _ => db
  | .update bid status stored errors emsg now =>
    update_batch_status db bid status stored errors emsg now

def applyOps (db : DB) (ops : List BOp) : DB :=
  ops.foldl applyOp db

/-- The lifecycle invariant of the spec, as a decidable check: every ledger
row with `completed_at` set has a terminal status. -/
def terminalInv (db : DB) : Bool :=
  db.batches.all (fun b =>
    !b.completed_at.isSome || (b.status == "completed" || b.status == "failed"))

/-- An operation that never writes a non-terminal status at finalization. -/
def opTerminalOnly : BOp → Bool
  | .create _ _ _ _ => true
  | .update _ status _ _ _ _ => status == "completed" || status == "failed"

/-! ## Concrete inputs used by counterexamples and witnesses -/

/-- Scenario A post: id `abc1`, title `T`, author `u1`. -/
def scPost : Dict :=
  [("id", .jstr "abc1"), ("title", .jstr "T"), ("author", .jstr "u1"),
   ("score", .jnum 10), ("upvote_ratio", .jnum 1), ("num_comments", .jnum 3),
   ("created_utc", .jnum 99), ("is_self", .jbool false), ("over_18", .jbool false),
   ("spoiler", .jbool false)]

/-- Scenario A `get_top_posts` response for subreddit `programming`. -/
def scPayload : Dict :=
  [("subreddit", .jstr "programming"), ("time_filter", .jstr "day"),
   ("posts", .jarr [.jobj scPost]),
   ("metadata", .jobj [("fetched_at", .jnum 1000), ("post_count", .jnum 1)])]

def scMeta : Option Dict := some [("limit", .jnum 5)]

def scRun : Except String (DB × Outcome) :=
  process_and_store_entities emptyDB scPayload "get_top_posts" scMeta "bA" 0

def outcome0 : Outcome := ⟨"", "", 0, ⟨0, 0, 0, 0, 0, 0⟩, 0, none⟩

def scDB : DB := match scRun with | .ok r => r.1 | .error _ => emptyDB

def scOut : Outcome := match scRun with | .ok r => r.2 | .error _ => outcome0

/-- A `who_am_i` response that validates, but whose extracted user entity
has no `username` key (the model field is `name`), so `store_user` hits
the NOT NULL constraint. -/
def waPayload : Dict :=
  [("id", .jstr "t2_x1"), ("name", .jstr "bob"), ("created_utc", .jnum 1),
   ("comment_karma", .jnum 1), ("link_karma", .jnum 1), ("total_karma", .jnum 2),
   ("awardee_karma", .jnum 0), ("awarder_karma", .jnum 0),
   ("has_verified_email", .jbool true), ("is_employee", .jbool false),
   ("is_friend", .jbool false), ("is_gold", .jbool false), ("is_mod", .jbool false),
   ("is_suspended", .jbool false), ("verified", .jbool true),
   ("has_subscribed", .jbool false), ("snoovatar_img", .jstr ""),
   ("icon_img", .jstr ""), ("pref_show_snoovatar", .jbool false),
   ("metadata", .jobj
     [("fetched_at", .jnum 1), ("is_authenticated", .jbool true),
      ("is_moderator", .jbool false), ("has_verified_email", .jbool true),
      ("has_mail", .jbool false), ("has_mod_mail", .jbool false),
      ("has_subscribed", .jbool false), ("in_chat", .jbool false),
      ("in_redesign_beta", .jbool false), ("new_modmail_exists", .jbool false),
      ("pref_no_profanity", .jbool true)])]

def waRun : Except String (DB × Outcome) :=
  process_and_store_entities emptyDB waPayload "who_am_i" none "bB" 0

def waDB : DB := match waRun with | .ok r => r.1 | .error _ => emptyDB

def waOut : Outcome := match waRun with | .ok r => r.2 | .error _ => outcome0

/-- An arbitrary payload for an operation with no registered schema. -/
def unregPayload : Dict := [("foo", .jstr "bar"), ("n", .jnum 7)]

def unregRun : Except String (DB × Outcome) :=
  process_and_store_entities emptyDB unregPayload "unregistered_op" scMeta "bC" 0

def unregDB : DB := match unregRun with | .ok r => r.1 | .error _ => emptyDB

def unregOut : Outcome := match unregRun with | .ok r => r.2 | .error _ => outcome0

/-- The empty dict fails validation against `GetTopPostsResponse`. -/
def invalidRun : Except String (DB × Outcome) :=
  process_and_store_entities emptyDB [] "get_top_posts" none "bD" 0

def invalidDB : DB := match invalidRun with | .ok r => r.1 | .error _ => emptyDB

def invalidOut : Outcome := match invalidRun with | .ok r => r.2 | .error _ => outcome0

/-- First entity of a bucket, for concrete projections. -/
def firstOf (ds : List Dict) : Dict := ds.headD []

/-! ## Shared lemmas -/

/-- A successful `process_and_store_entities` run decomposes into a
successful `create_batch` followed by `runBatch`. -/
theorem process_ok_cases {db : DB} {raw : Dict} {fn : String} {meta : Option Dict}
    {bid : String} {now : Nat} {db2 : DB} {o : Outcome}
    (h : process_and_store_entities db raw fn meta bid now = .ok (db2, o)) :
    ∃ db1, create_batch db fn meta bid now = .ok db1 ∧
      db2 = (runBatch db1 raw fn meta bid now).1 ∧
      o = (runBatch db1 raw fn meta bid now).2 := by
  unfold process_and_store_entities at h
  cases hc : create_batch db fn meta bid now with
  | error e => rw [hc] at h; exact Except.noConfusion h
  | ok db1 =>
    rw [hc] at h
    injection h with h2
    exact ⟨db1, rfl, (congrArg Prod.fst h2).symm, (congrArg Prod.snd h2).symm⟩

/-- The error counter equals the number of collected failure messages. -/
theorem attemptAll_errors_len (db : DB) (eu : List (String × List Dict)) (fn : String)
    (meta : Option Dict) (bid : String) (now : Nat) :
    (attemptAll db eu fn meta bid now).2.1.errors
      = (attemptAll db eu fn meta bid now).2.2.length := rfl

theorem finalizeOutcome_status_iff (bid : String) (counts : StoredCounts) (msgs : List String) :
    ((finalizeOutcome bid counts msgs).status = "failed"
      ↔ 0 < (finalizeOutcome bid counts msgs).errors) := by
  unfold finalizeOutcome
  dsimp only
  cases h : counts.errors with
  | zero => decide
  | succ n => simp

theorem finalizeOutcome_total (bid : String) (counts : StoredCounts) (msgs : List String) :
    (finalizeOutcome bid counts msgs).total_entities
      = counts.users + counts.posts + counts.comments + counts.subreddits + counts.submissions := rfl

/-! ## Claim C5 -/

theorem finalizeOutcome_status_completed (bid : String) (counts : StoredCounts)
    (msgs : List String) :
    (finalizeOutcome bid counts msgs).errors = 0 →
      (finalizeOutcome bid counts msgs).status = "completed" := by
  unfold finalizeOutcome
  dsimp only
  intro h
  rw [h]
  rfl

/-- Claim C5: every completed invocation of `process_and_store_entities`
returns an outcome whose `status` is `"failed"` exactly when `errors > 0`
and is `"completed"` otherwise, and whose `total_entities` is the sum of
the successful per-kind stored counts, excluding the error count. -/
theorem c5_outcome_invariant (db : DB) (raw : Dict) (fn : String) (meta : Option Dict)
    (bid : String) (now : Nat) (db2 : DB) (o : Outcome)
    (h : process_and_store_entities db raw fn meta bid now = .ok (db2, o)) :
    (o.status = "failed" ↔ 0 < o.errors) ∧
    (o.errors = 0 → o.status = "completed") ∧
    o.total_entities = o.entities_stored.users + o.entities_stored.posts +
      o.entities_stored.comments + o.entities_stored.subreddits +
      o.entities_stored.submissions := by
  obtain ⟨db1, hc, hdb2, ho⟩ := process_ok_cases h
  subst ho
  have hr : (runBatch db1 raw fn meta bid now).2
      = finalizeOutcome bid
          (attemptAll db1 (parse_to_units raw fn meta now) fn meta bid now).2.1
          (attemptAll db1 (parse_to_units raw fn meta now) fn meta bid now).2.2 := rfl
  rw [hr]
  exact ⟨finalizeOutcome_status_iff _ _ _, finalizeOutcome_status_completed _ _ _, rfl⟩

/-- Witness for C5: a concrete `who_am_i` run in which the single
extracted user entity lacks a `username` key, so one insert fails and the
batch outcome is `failed` with one error. -/
theorem c5_outcome_invariant_witness :
    (waOut.status = "failed" ↔ 0 < waOut.errors) ∧
    (waOut.errors = 0 → waOut.status = "completed") ∧
    waOut.total_entities = waOut.entities_stored.users + waOut.entities_stored.posts +
      waOut.entities_stored.comments + waOut.entities_stored.subreddits +
      waOut.entities_stored.submissions :=
  c5_outcome_invariant emptyDB waPayload "who_am_i" none "bB" 0 waDB waOut rfl

/-! ## Claim C8 -/

theorem finalizeOutcome_msg (bid : String) (counts : StoredCounts) (msgs : List String)
    (hlen : counts.errors = msgs.length) :
    ((finalizeOutcome bid counts msgs).error_message = none
       ↔ (finalizeOutcome bid counts msgs).errors = 0) ∧
    (0 < (finalizeOutcome bid counts msgs).errors →
      (finalizeOutcome bid counts msgs).error_message
        = some (String.intercalate "; " msgs)) := by
  unfold finalizeOutcome
  dsimp only
  rw [hlen]
  cases msgs with
  | nil => simp
  | cons m ms => simp

/-- Claim C8: for every completed invocation of
`process_and_store_entities`, `error_message` is `none` exactly when
`errors = 0`; the error counter counts the individual per-entity failure
descriptions; and when failures occurred, `error_message` is their
semicolon-joined concatenation in order of occurrence. -/
theorem c8_error_message_policy (db : DB) (raw : Dict) (fn : String) (meta : Option Dict)
    (bid : String) (now : Nat) (db2 : DB) (o : Outcome)
    (h : process_and_store_entities db raw fn meta bid now = .ok (db2, o)) :
    (o.error_message = none ↔ o.errors = 0) ∧
    o.errors = (failureMessages db raw fn meta bid now).length ∧
    (0 < o.errors →
      o.error_message
        = some (String.intercalate "; " (failureMessages db raw fn meta bid now))) := by
  obtain ⟨db1, hc, hdb2, ho⟩ := process_ok_cases h
  subst ho
  have hf : failureMessages db raw fn meta bid now
      = (attemptAll db1 (parse_to_units raw fn meta now) fn meta bid now).2.2 := by
    unfold failureMessages
    rw [hc]
  rw [hf]
  have hel := attemptAll_errors_len db1 (parse_to_units raw fn meta now) fn meta bid now
  have hr : (runBatch db1 raw fn meta bid now).2
      = finalizeOutcome bid
          (attemptAll db1 (parse_to_units raw fn meta now) fn meta bid now).2.1
          (attemptAll db1 (parse_to_units raw fn meta now) fn meta bid now).2.2 := rfl
  rw [hr]
  exact ⟨(finalizeOutcome_msg _ _ _ hel).1, hel, (finalizeOutcome_msg _ _ _ hel).2⟩

/-- Witness for C8: the concrete `who_am_i` run with one insert failure;
its `error_message` is the single NOT NULL failure description. -/
theorem c8_error_message_policy_witness :
    (waOut.error_message = none ↔ waOut.errors = 0) ∧
    waOut.errors = (failureMessages emptyDB waPayload "who_am_i" none "bB" 0).length ∧
    (0 < waOut.errors →
      waOut.error_message
        = some (String.intercalate "; "
            (failureMessages emptyDB waPayload "who_am_i" none "bB" 0))) :=
  c8_error_message_policy emptyDB waPayload "who_am_i" none "bB" 0 waDB waOut rfl

/-! ## Claim C1 -/

theorem store_user_batches {db db2 : DB} {ud : Dict} {bid fn : String} {meta : Option Dict}
    {now : Nat} (h : store_user db ud bid fn meta now = .ok db2) : db2.batches = db.batches := by
  unfold store_user at h
  split at h
  · exact Except.noConfusion h
  · split at h
    · exact Except.noConfusion h
    · split at h
      · exact Except.noConfusion h
      · cases h; rfl

theorem store_post_batches {db db2 : DB} {pd : Dict} {bid fn : String} {meta : Option Dict}
    {now : Nat} (h : store_post db pd bid fn meta now = .ok db2) : db2.batches = db.batches := by
  unfold store_post at h
  split at h
  · exact Except.noConfusion h
  · split at h
    · exact Except.noConfusion h
    · split at h
      · exact Except.noConfusion h
      · split at h
        · exact Except.noConfusion h
        · cases h; rfl

theorem store_comment_batches {db db2 : DB} {cd : Dict} {bid fn : String} {meta : Option Dict}
    {now : Nat} (h : store_comment db cd bid fn meta now = .ok db2) : db2.batches = db.batches := by
  unfold store_comment at h
  split at h
  · exact Except.noConfusion h
  · split at h
    · exact Except.noConfusion h
    · split at h
      · exact Except.noConfusion h
      · cases h; rfl

theorem store_subreddit_batches {db db2 : DB} {sd : Dict} {bid fn : String} {meta : Option Dict}
    {now : Nat} (h : store_subreddit db sd bid fn meta now = .ok db2) :
    db2.batches = db.batches := by
  unfold store_subreddit at h
  split at h
  · exact Except.noConfusion h
  · split at h
    · exact Except.noConfusion h
    · split at h
      · exact Except.noConfusion h
      · cases h; rfl

theorem store_submission_batches {db db2 : DB} {sd : Dict} {bid fn : String} {meta : Option Dict}
    {now : Nat} (h : store_submission db sd bid fn meta now = .ok db2) :
    db2.batches = db.batches := by
  unfold store_submission at h
  split at h
  · exact Except.noConfusion h
  · split at h
    · exact Except.noConfusion h
    · split at h
      · exact Except.noConfusion h
      · split at h
        · exact Except.noConfusion h
        · cases h; rfl

/-- Entity inserts never touch the `batches` ledger. -/
theorem storeLoop_batches (step : DB → Dict → Except String DB) (mk : Dict → String → String)
    (hstep : ∀ db d db2, step db d = .ok db2 → db2.batches = db.batches) :
    ∀ (l : List Dict) (db : DB), ((storeLoop step mk db l).1).batches = db.batches := by
  intro l
  induction l with
  | nil => intro db; rfl
  | cons d ds ih =>
    intro db
    unfold storeLoop
    cases hs : step db d with
    | ok db2 =>
      exact (ih db2).trans (hstep db d db2 hs)
    | error e =>
      exact ih db

theorem attemptAll_batches (db : DB) (eu : List (String × List Dict)) (fn : String)
    (meta : Option Dict) (bid : String) (now : Nat) :
    ((attemptAll db eu fn meta bid now).1).batches = db.batches := by
  unfold attemptAll
  rw [storeLoop_batches _ _ (fun a b c hh => store_submission_batches hh),
      storeLoop_batches _ _ (fun a b c hh => store_subreddit_batches hh),
      storeLoop_batches _ _ (fun a b c hh => store_comment_batches hh),
      storeLoop_batches _ _ (fun a b c hh => store_post_batches hh),
      storeLoop_batches _ _ (fun a b c hh => store_user_batches hh)]

/-- Finding the finalized row: with no pre-existing row for `bid` and the
fresh row appended last, the ledger update rewrites exactly that row. -/
theorem find?_update_fresh (l : List BatchRow) (bid : String) (r0 : BatchRow)
    (hl : l.any (fun b => b.batch_id == bid) = false) (h0 : r0.batch_id = bid)
    (status : String) (es er : Nat) (em : Option String) (now : Nat) :
    ((l ++ [r0]).map (fun b =>
        if b.batch_id == bid then
          { b with status := status, entities_stored := es, errors := er,
                   error_message := em, completed_at := some now }
        else b)).find? (fun b => b.batch_id == bid)
      = some { r0 with status := status, entities_stored := es, errors := er,
                       error_message := em, completed_at := some now } := by
  induction l with
  | nil => simp [h0]
  | cons a l ih =>
    simp only [List.any_cons, Bool.or_eq_false_iff] at hl
    obtain ⟨ha, hl2⟩ := hl
    have hif : (if (a.batch_id == bid) = true then
        { a with status := status, entities_stored := es, errors := er,
                 error_message := em, completed_at := some now } else a) = a := by
      rw [if_neg]
      simp [ha]
    rw [List.cons_append, List.map_cons, hif, List.find?_cons_of_neg _ (by simp [ha])]
    exact ih hl2

theorem get_batch_info_update_fresh (db0 : DB) (l : List BatchRow) (r0 : BatchRow) (bid : String)
    (hl : l.any (fun b => b.batch_id == bid) = false) (h0 : r0.batch_id = bid)
    (hb : db0.batches = l ++ [r0]) (status : String) (es er : Nat) (em : Option String)
    (now : Nat) :
    get_batch_info (update_batch_status db0 bid status es er em now) bid
      = some { r0 with status := status, entities_stored := es, errors := er,
                       error_message := em, completed_at := some now } := by
  unfold get_batch_info update_batch_status
  dsimp only
  rw [hb]
  exact find?_update_fresh l bid r0 hl h0 status es er em now

/-- Claim C1 (corrected): finalization writes the successful-insert count
into the ledger's `entities_stored` column; the `total_entities` column is
never updated and the persisted batch record returned by `get_batch_info`
reports `total_entities = 0`. -/
theorem c1_ledger_counts (db : DB) (raw : Dict) (fn : String) (meta : Option Dict)
    (bid : String) (now : Nat) (db2 : DB) (o : Outcome)
    (h : process_and_store_entities db raw fn meta bid now = .ok (db2, o)) :
    (get_batch_info db2 bid).map (fun b => (b.total_entities, b.entities_stored))
      = some (0, o.total_entities) := by
  obtain ⟨db1, hc, hdb2, ho⟩ := process_ok_cases h
  subst hdb2
  subst ho
  unfold create_batch at hc
  split at hc
  · exact Except.noConfusion hc
  next hfr =>
    injection hc with h1
    subst h1
    have hfr2 : db.batches.any (fun b => b.batch_id == bid) = false := by
      cases hx : db.batches.any (fun b => b.batch_id == bid) with
      | false => rfl
      | true => exact absurd hx hfr
    have hr1 : (runBatch { db with batches := db.batches ++ [newBatchRow fn meta bid now] }
          raw fn meta bid now).1
        = update_batch_status
            (attemptAll { db with batches := db.batches ++ [newBatchRow fn meta bid now] }
              (parse_to_units raw fn meta now) fn meta bid now).1 bid
            ((runBatch { db with batches := db.batches ++ [newBatchRow fn meta bid now] }
                raw fn meta bid now).2.status)
            ((runBatch { db with batches := db.batches ++ [newBatchRow fn meta bid now] }
                raw fn meta bid now).2.total_entities)
            ((runBatch { db with batches := db.batches ++ [newBatchRow fn meta bid now] }
                raw fn meta bid now).2.errors)
            ((runBatch { db with batches := db.batches ++ [newBatchRow fn meta bid now] }
                raw fn meta bid now).2.error_message) now := rfl
    rw [hr1]
    have hA1b : ((attemptAll { db with batches := db.batches ++ [newBatchRow fn meta bid now] }
          (parse_to_units raw fn meta now) fn meta bid now).1).batches
        = db.batches ++ [newBatchRow fn meta bid now] :=
      attemptAll_batches _ _ _ _ _ _
    rw [get_batch_info_update_fresh _ db.batches (newBatchRow fn meta bid now) bid hfr2 rfl hA1b]
    rfl

/-- Witness for C1: the Scenario A run stores three entities; the returned
outcome says `total_entities = 3` while the persisted ledger row has
`total_entities = 0` and `entities_stored = 3`. -/
theorem c1_ledger_counts_witness :
    (get_batch_info scDB "bA").map (fun b => (b.total_entities, b.entities_stored))
      = some (0, scOut.total_entities) :=
  c1_ledger_counts emptyDB scPayload "get_top_posts" scMeta "bA" 0 scDB scOut rfl

/-- Counterexample for C1 as stated: after the Scenario A run, three
entity rows were successfully inserted (the outcome's `total_entities`
is 3), yet the batch record persisted in the ledger and returned by
`get_batch_info` has `total_entities = 0`, not 3 — the count went into
`entities_stored` instead. -/
theorem c1_counterexample :
    scOut.total_entities = 3 ∧
    (get_batch_info scDB "bA").map (fun b => b.entities_stored) = some 3 ∧
    (get_batch_info scDB "bA").map (fun b => b.total_entities) = some 0 := by
  decide

/-! ## Claim C2 -/

theorem get_batch_results_ext (d1 d2 : DB) (hu : d1.users = d2.users)
    (hp : d1.posts = d2.posts) (hcm : d1.comments = d2.comments)
    (hs2 : d1.subreddits = d2.subreddits) (hsb : d1.submissions = d2.submissions)
    (bid : String) : get_batch_results d1 bid = get_batch_results d2 bid := by
  unfold get_batch_results
  rw [hu, hp, hcm, hs2, hsb]

/-- Claim C2 (corrected): for an operation with no registered schema,
`process_and_store_entities` returns all per-kind counts zero, zero
errors and status `completed`, and the unclassified payload survives only
in the extraction result's `unknown` bucket — the store persists nothing
for it, so `get_batch_results` is unchanged by the invocation. -/
theorem c2_unregistered_not_persisted (db : DB) (data : Dict) (fn : String)
    (meta : Option Dict) (bid : String) (now : Nat) (db2 : DB) (o : Outcome)
    (hs : get_schema_for_function fn = none)
    (h : process_and_store_entities db data fn meta bid now = .ok (db2, o)) :
    o.status = "completed" ∧ o.errors = 0 ∧
    o.entities_stored = ⟨0, 0, 0, 0, 0, 0⟩ ∧ o.total_entities = 0 ∧
    bucketOf (parse_to_units data fn meta now) "unknown"
      = [stampWhenPresent fn meta now data] ∧
    get_batch_results db2 bid = get_batch_results db bid := by
  obtain ⟨db1, hc, hdb2, ho⟩ := process_ok_cases h
  subst hdb2
  subst ho
  have hex : extract_entities_from_response data fn = [("unknown", [data])] := by
    unfold extract_entities_from_response
    rw [hs]
  have hpu : parse_to_units data fn meta now
      = [("unknown", [stampWhenPresent fn meta now data])] := by
    unfold parse_to_units stampWhenPresent
    rw [hex]
    cases meta with
    | none => rfl
    | some m =>
      cases hm : m.isEmpty with
      | true => simp [hm]
      | false => simp [hm]
  have hrb : runBatch db1 data fn meta bid now
      = (update_batch_status db1 bid "completed" 0 0 none now,
         finalizeOutcome bid ⟨0, 0, 0, 0, 0, 0⟩ []) := by
    unfold runBatch
    rw [hpu]
    rfl
  unfold create_batch at hc
  split at hc
  · exact Except.noConfusion hc
  next hfr =>
    injection hc with h1
    subst h1
    refine ⟨?_, ?_, ?_, ?_, ?_, ?_⟩
    · rw [congrArg Prod.snd hrb]
      rfl
    · rw [congrArg Prod.snd hrb]
      rfl
    · rw [congrArg Prod.snd hrb]
      rfl
    · rw [congrArg Prod.snd hrb]
      rfl
    · rw [hpu]
      rfl
    · rw [congrArg Prod.fst hrb]
      exact get_batch_results_ext _ _ rfl rfl rfl rfl rfl bid

/-- Witness for C2: the concrete `unregistered_op` run. -/
theorem c2_unregistered_not_persisted_witness :
    unregOut.status = "completed" ∧ unregOut.errors = 0 ∧
    unregOut.entities_stored = ⟨0, 0, 0, 0, 0, 0⟩ ∧ unregOut.total_entities = 0 ∧
    bucketOf (parse_to_units unregPayload "unregistered_op" scMeta 0) "unknown"
      = [stampWhenPresent "unregistered_op" scMeta 0 unregPayload] ∧
    get_batch_results unregDB "bC" = get_batch_results emptyDB "bC" :=
  c2_unregistered_not_persisted emptyDB unregPayload "unregistered_op" scMeta "bC" 0
    unregDB unregOut rfl rfl

/-- Counterexample for C2 as stated: the `unregistered_op` run completes
with all counts zero, but the unclassified payload is not retrievable
afterwards — `get_batch_results` has no `"unknown"` bucket at all and all
five kind buckets are empty, so the store silently dropped it. -/
theorem c2_counterexample :
    unregOut.status = "completed" ∧ unregOut.errors = 0 ∧
    unregOut.entities_stored = ⟨0, 0, 0, 0, 0, 0⟩ ∧
    hasBucket (get_batch_results unregDB "bC") "unknown" = false ∧
    (bucketOf (get_batch_results unregDB "bC") "users").isEmpty = true ∧
    (bucketOf (get_batch_results unregDB "bC") "posts").isEmpty = true ∧
    (bucketOf (get_batch_results unregDB "bC") "comments").isEmpty = true ∧
    (bucketOf (get_batch_results unregDB "bC") "subreddits").isEmpty = true ∧
    (bucketOf (get_batch_results unregDB "bC") "submissions").isEmpty = true := by
  decide

/-! ## Claim C3 -/

/-- Claim C3 (corrected): when a registered operation's response fails
validation, the extractor captures a single `validation_error`
pseudo-entity holding the raw payload and the failure reason, and the
pipeline continues — the batch completes with zero errors — but the
pseudo-entity never becomes a row in the store: the batch's retrievable
results are unchanged by the invocation. -/
theorem c3_validation_error_captured (db : DB) (data : Dict) (fn : String)
    (meta : Option Dict) (bid : String) (now : Nat) (db2 : DB) (o : Outcome)
    (s : SchemaId) (e : String)
    (hs : get_schema_for_function fn = some s)
    (hv : runSchema s data = .error e)
    (h : process_and_store_entities db data fn meta bid now = .ok (db2, o)) :
    extract_entities_from_response data fn
      = [("validation_error", [[("error", .jstr e), ("data", .jobj data)]])] ∧
    o.status = "completed" ∧ o.errors = 0 ∧ o.total_entities = 0 ∧
    get_batch_results db2 bid = get_batch_results db bid := by
  obtain ⟨db1, hc, hdb2, ho⟩ := process_ok_cases h
  subst hdb2
  subst ho
  have hex : extract_entities_from_response data fn
      = [("validation_error", [[("error", .jstr e), ("data", .jobj data)]])] := by
    unfold extract_entities_from_response
    rw [hs]
    dsimp only
    rw [hv]
  have hpu : parse_to_units data fn meta now
      = [("validation_error",
          [stampWhenPresent fn meta now [("error", .jstr e), ("data", .jobj data)]])] := by
    unfold parse_to_units stampWhenPresent
    rw [hex]
    cases meta with
    | none => rfl
    | some m =>
      cases hm : m.isEmpty with
      | true => simp [hm]
      | false => simp [hm]
  have hrb : runBatch db1 data fn meta bid now
      = (update_batch_status db1 bid "completed" 0 0 none now,
         finalizeOutcome bid ⟨0, 0, 0, 0, 0, 0⟩ []) := by
    unfold runBatch
    rw [hpu]
    rfl
  unfold create_batch at hc
  split at hc
  · exact Except.noConfusion hc
  next hfr =>
    injection hc with h1
    subst h1
    refine ⟨hex, ?_, ?_, ?_, ?_⟩
    · rw [congrArg Prod.snd hrb]
      rfl
    · rw [congrArg Prod.snd hrb]
      rfl
    · rw [congrArg Prod.snd hrb]
      rfl
    · rw [congrArg Prod.fst hrb]
      exact get_batch_results_ext _ _ rfl rfl rfl rfl rfl bid

/-- Witness for C3: the empty dict against `get_top_posts`. -/
theorem c3_validation_error_captured_witness :
    extract_entities_from_response [] "get_top_posts"
      = [("validation_error",
          [[("error", .jstr "field required: subreddit"), ("data", .jobj [])]])] ∧
    invalidOut.status = "completed" ∧ invalidOut.errors = 0 ∧
    invalidOut.total_entities = 0 ∧
    get_batch_results invalidDB "bD" = get_batch_results emptyDB "bD" :=
  c3_validation_error_captured emptyDB [] "get_top_posts" none "bD" 0 invalidDB invalidOut
    .getTopPostsS "field required: subreddit" rfl rfl rfl

/-- Counterexample for C3 as stated: the empty dict fails validation for
`get_top_posts` and the extractor captures a `validation_error`
pseudo-entity, but after `process_and_store_entities` finishes there is no
durable row anywhere — all entity tables stay empty and `get_batch_results`
has no `validation_error` bucket — so the unexpected shape does not become
an inspectable row in the store. -/
theorem c3_counterexample :
    hasBucket (extract_entities_from_response [] "get_top_posts") "validation_error" = true ∧
    invalidOut.status = "completed" ∧ invalidOut.errors = 0 ∧
    invalidDB.users.isEmpty = true ∧ invalidDB.posts.isEmpty = true ∧
    invalidDB.comments.isEmpty = true ∧ invalidDB.subreddits.isEmpty = true ∧
    invalidDB.submissions.isEmpty = true ∧
    hasBucket (get_batch_results invalidDB "bD") "validation_error" = false := by
  decide

/-! ## Claim C4 -/

/-- Claim C4 (corrected): `extract_entities_from_response` is total — in
this embedding it is a plain function, mirroring the source's catch-all
around validation — and for every registered operation the returned
mapping has all five fixed kinds as keys exactly when validation
succeeds; on validation failure it instead has the single key
`validation_error` (so the five kinds are not always present). -/
theorem c4_extract_keys (data : Dict) (fn : String) (s : SchemaId)
    (hs : get_schema_for_function fn = some s) :
    (∀ v, runSchema s data = .ok v →
      (extract_entities_from_response data fn).map Prod.fst = fiveKindNames) ∧
    (∀ e, runSchema s data = .error e →
      (extract_entities_from_response data fn).map Prod.fst = ["validation_error"]) := by
  constructor
  · intro v hv
    unfold extract_entities_from_response
    rw [hs]
    dsimp only
    rw [hv]
    cases v <;> rfl
  · intro e he
    unfold extract_entities_from_response
    rw [hs]
    dsimp only
    rw [he]
    rfl

/-- The validated Scenario A response. -/
def scValidated : Validated :=
  match runSchema .getTopPostsS scPayload with
  | .ok v => v
  | .error _ => .user []

/-- Witness for C4: the Scenario A payload validates against
`get_top_posts` and its extraction carries all five kinds as keys. -/
theorem c4_extract_keys_witness :
    (extract_entities_from_response scPayload "get_top_posts").map Prod.fst = fiveKindNames :=
  (c4_extract_keys scPayload "get_top_posts" .getTopPostsS rfl).1 scValidated rfl

/-- Counterexample for C4 as stated: for the registered operation
`get_top_posts` and the empty-dict response, extraction returns a
mapping whose only key is `validation_error` — the five fixed entity
kinds are absent. -/
theorem c4_counterexample :
    (extract_entities_from_response [] "get_top_posts").map Prod.fst = ["validation_error"] ∧
    hasBucket (extract_entities_from_response [] "get_top_posts") "users" = false := by
  decide

/-! ## Claim C6 -/

/-- Claim C6 (corrected): for the Scenario A `get_top_posts` response
(one post `abc1` titled `T` by `u1` in `programming`),
`process_and_store_entities` succeeds and the batch's retrieved entities
contain exactly one post with title `T`, exactly one user with username
`u1`, and exactly one subreddit row whose `display_name` references
`programming`; the item count (`post_count = 1`) is carried by the
extracted container entity, but the stored subreddit row has no such
column, so the persisted community row does not carry it. -/
theorem c6_scenario_a :
    scRun = .ok (scDB, scOut) ∧
    (bucketOf (get_batch_results scDB "bA") "posts").length = 1 ∧
    getStr (firstOf (bucketOf (get_batch_results scDB "bA") "posts")) "title" = some "T" ∧
    (bucketOf (get_batch_results scDB "bA") "users").length = 1 ∧
    getStr (firstOf (bucketOf (get_batch_results scDB "bA") "users")) "username" = some "u1" ∧
    (bucketOf (get_batch_results scDB "bA") "subreddits").length = 1 ∧
    getStr (firstOf (bucketOf (get_batch_results scDB "bA") "subreddits")) "display_name"
      = some "programming" ∧
    getNum (firstOf (bucketOf (extract_entities_from_response scPayload "get_top_posts")
      "subreddits")) "post_count" = some 1 := by
  exact ⟨rfl, by decide, by decide, by decide, by decide, by decide, by decide, by decide⟩

/-- Counterexample for C6 as stated: in the Scenario A run the single
retrieved community/subreddit row references `programming` but carries no
item count — it has no `post_count` key at all. -/
theorem c6_counterexample :
    (bucketOf (get_batch_results scDB "bA") "subreddits").length = 1 ∧
    getStr (firstOf (bucketOf (get_batch_results scDB "bA") "subreddits")) "display_name"
      = some "programming" ∧
    (lookupD (firstOf (bucketOf (get_batch_results scDB "bA") "subreddits"))
      "post_count").isSome = false := by
  decide

/-! ## Claim C7 -/

theorem userStubPost_inj {a b : String} (h : userStubPost a = userStubPost b) : a = b := by
  simpa [userStubPost] using h

/-- Claim C7: wherever decomposition reads an author username (the
`get_top_posts` post loop and the submission branch — the only branches
of `_extract_entities_from_validated_response` that do), a minimal User
stub is emitted alongside the primary entity exactly when the author is
not the deleted-sentinel `"[deleted]"`. -/
theorem c7_actor_stub (sub tf u : String) (posts : List PostV) (a s2 : String) (d : Dict) :
    (userStubPost u ∈ bucketOf (extractFromValidated (.topPosts sub tf posts)) "users"
       ↔ (∃ p ∈ posts, p.author = u) ∧ u ≠ "[deleted]") ∧
    (userStubSubmission a ∈ bucketOf (extractFromValidated (.submission a s2 d)) "users"
       ↔ a ≠ "[deleted]") := by
  constructor
  · show userStubPost u ∈ (posts.filter (fun p => p.author != "[deleted]")).map
        (fun p => userStubPost p.author) ↔ _
    rw [List.mem_map]
    constructor
    · rintro ⟨p, hp, he⟩
      rw [List.mem_filter] at hp
      have hau : p.author = u := userStubPost_inj he
      refine ⟨⟨p, hp.1, hau⟩, ?_⟩
      rw [← hau]
      simpa using hp.2
    · rintro ⟨⟨p, hp, hau⟩, hne⟩
      refine ⟨p, List.mem_filter.mpr ⟨hp, ?_⟩, by rw [hau]⟩
      rw [hau]
      simpa using hne
  · show userStubSubmission a ∈ (if a == "[deleted]" then [] else [userStubSubmission a]) ↔ _
    cases hd : a == "[deleted]" with
    | true => simp [hd, eq_of_beq hd]
    | false =>
      have hne : a ≠ "[deleted]" := by
        intro hh
        rw [hh] at hd
        simp at hd
      simp [hd, hne]

/-! ## Claim C9 -/

theorem applyOp_terminalInv (db : DB) (op : BOp) (hdb : terminalInv db = true)
    (hop : opTerminalOnly op = true) : terminalInv (applyOp db op) = true := by
  cases op with
  | create bid fn meta now =>
    simp only [applyOp]
    cases hc : create_batch db fn meta bid now with
    | error e => exact hdb
    | ok db2 =>
      unfold create_batch at hc
      split at hc
      · exact Except.noConfusion hc
      · injection hc with h1
        subst h1
        unfold terminalInv at hdb ⊢
        rw [List.all_append, hdb]
        rfl
  | update bid status stored errors emsg now =>
    simp only [opTerminalOnly] at hop
    simp only [applyOp]
    unfold terminalInv at hdb ⊢
    unfold update_batch_status
    rw [List.all_map]
    rw [List.all_eq_true] at hdb ⊢
    intro b hb
    dsimp only [Function.comp]
    split
    · simpa using hop
    · exact hdb b hb

/-- Claim C9 (corrected): over sequences of raw Batch Store operations in
which `update_batch_status` is only ever called with a terminal status
(`completed`/`failed`) — as the orchestrator does — every ledger row with
`completed_at` set has a terminal status.  Without that restriction the
claim fails: `update_batch_status` accepts `"processing"` and always sets
`completed_at`, so a batch can be re-opened (see the counterexample). -/
theorem c9_terminal_once_finalized (db : DB) (ops : List BOp)
    (hdb : terminalInv db = true) (hops : ops.all opTerminalOnly = true) :
    terminalInv (applyOps db ops) = true := by
  induction ops generalizing db with
  | nil => exact hdb
  | cons op rest ih =>
    rw [List.all_cons, Bool.and_eq_true] at hops
    exact ih (applyOp db op) (applyOp_terminalInv db op hdb hops.1) hops.2

/-- Witness for C9: a create-then-finalize sequence keeps the invariant. -/
theorem c9_terminal_once_finalized_witness :
    terminalInv (applyOps emptyDB
      [.create "b" "f" none 0, .update "b" "completed" 3 0 none 1]) = true :=
  c9_terminal_once_finalized emptyDB
    [.create "b" "f" none 0, .update "b" "completed" 3 0 none 1]
    (by decide) (by decide)

/-- Counterexample for C9 as stated: the Batch Store happily re-opens a
finalized batch.  After create → finalize(`completed`) →
`update_batch_status(..., "processing", ...)`, the ledger row has
`completed_at` set yet `status = "processing"`. -/
theorem c9_counterexample :
    (get_batch_info (applyOps emptyDB
        [.create "b" "f" none 0, .update "b" "completed" 3 0 none 1,
         .update "b" "processing" 0 0 none 2]) "b").map
      (fun b => (b.status, b.completed_at)) = some ("processing", some 2) := by
  decide

/-! ## Claim C10 -/

/-- Claim C10 (corrected): for an operation with no registered schema and
*truthy* call metadata, `parse_to_units` mutates the caller's raw-response
object in place — the dict behind the input reference gains an
`extraction_metadata` key — and the single element of the returned
`unknown` list is that same reference, not a copy; all other heap objects
are untouched.  The original claim's "every non-None call_metadata" is too
strong: `if function_metadata:` is Python truthiness, so the non-`None`
empty dict triggers no mutation (see the counterexample). -/
theorem c10_inplace_stamp (h : RHeap) (r : Ref) (fn : String) (meta : Option Dict)
    (m : Dict) (now : Nat)
    (hs : get_schema_for_function fn = none)
    (hm : meta = some m) (hne : m.isEmpty = false) :
    parse_to_units_ref h r fn meta now
      = some (stampRef fn now m r h, [("unknown", [r])]) ∧
    stampRef fn now m r h r
      = setKey (h r) "extraction_metadata" (extractionMetaObj fn now m) ∧
    (∀ q, q ≠ r → stampRef fn now m r h q = h q) := by
  subst hm
  refine ⟨?_, ?_, ?_⟩
  · unfold parse_to_units_ref
    rw [hs]
    dsimp only
    rw [hne]
    rfl
  · unfold stampRef
    simp
  · intro q hq
    unfold stampRef
    have h2 : ¬((q == r) = true) := by simp [hq]
    rw [if_neg h2]

/-- Witness for C10: a concrete heap and nonempty metadata. -/
def crHeap : RHeap := fun _ => [("k", .jstr "v")]

theorem c10_inplace_stamp_witness :
    parse_to_units_ref crHeap 0 "unregistered_op" (some [("a", .jnum 1)]) 7
      = some (stampRef "unregistered_op" 7 [("a", .jnum 1)] 0 crHeap, [("unknown", [0])]) ∧
    stampRef "unregistered_op" 7 [("a", .jnum 1)] 0 crHeap 0
      = setKey (crHeap 0) "extraction_metadata"
          (extractionMetaObj "unregistered_op" 7 [("a", .jnum 1)]) ∧
    (∀ q, q ≠ 0 → stampRef "unregistered_op" 7 [("a", .jnum 1)] 0 crHeap q = crHeap q) :=
  c10_inplace_stamp crHeap 0 "unregistered_op" (some [("a", .jnum 1)]) [("a", .jnum 1)] 7
    rfl rfl rfl

/-- Counterexample for C10 as stated: with the empty dict as call
metadata — which is non-`None` — `parse_to_units` adds no
`extraction_metadata` key to the raw response object (the heap object
behind the returned `unknown` reference is unchanged). -/
theorem c10_counterexample :
    (some ([] : Dict)).isSome = true ∧
    (parse_to_units_ref crHeap 0 "unregistered_op" (some []) 7).map
      (fun p => (lookupD (p.1 0) "extraction_metadata").isSome) = some false ∧
    (parse_to_units_ref crHeap 0 "unregistered_op" (some []) 7).map
      (fun p => p.2) = some [("unknown", [0])] := by
  decide
